import Mathlib

/-!
Shallow embedding of the fan-out/fan-in orchestration core of the
`fastapi_base_service` repository, together with theorems settling the
frozen claims about it.

Modelled source files:
  * `app/services/business_service.py` — `BusinessService.process_data`,
    `BusinessService._fetch_external_data`, `BusinessService._combine_data`
  * `app/clients/external_client.py` — `BaseClient._make_request` and the
    two concrete client operations used by the orchestrator
  * `app/main.py` — the `/process` endpoint handler
  * `app/middleware/error_handler.py` — `error_handler_middleware`

Modelling conventions:
  * Python `dict[str, str]` payloads are insertion-ordered association
    lists `List (String × String)`; the upstream payloads exercised by the
    orchestrator are JSON objects with string keys and string values.
  * Python exceptions are the `Except` error channel; the exception's
    `str()` rendering is carried as a `String`.
  * `time.time()` readings are rational numbers (Python wall-clock floats);
    the textual rendering of the `processed_at` timestamp inside
    `_combine_data` is carried as an opaque `String` argument, since only
    its character count feeds the combined summary.
  * Structured log events are modelled by level, message, the `error=`
    keyword value, and remaining keyword pairs.
  * The model of Python string `repr` covers strings of printable
    characters (quote choice and quote/backslash escaping); control
    characters and non-ASCII escapes are outside the modelled domain.
-/

namespace FastapiBase

/-- Character constants used by the Python `repr` model: the single quote,
the double quote and the backslash. -/
def squote : Char := Char.ofNat 39

/-- The double-quote character. -/
def dquote : Char := Char.ofNat 34

/-- The backslash character. -/
def bslash : Char := Char.ofNat 92

/-- A Python `dict[str, str]` payload, in insertion order. -/
abbrev Payload := List (String × String)

/-- Escape a character sequence for a Python string literal delimited by
`quote`: backslashes and the delimiter itself are backslash-escaped. -/
def escChars (quote : Char) : List Char → List Char
  | [] => []
  | c :: cs =>
    (if c = bslash then [bslash, bslash]
     else if c = quote then [bslash, c]
     else [c]) ++ escChars quote cs

/-- Escape a whole string for a Python literal delimited by `quote`. -/
def escPy (quote : Char) (s : String) : String :=
  ⟨escChars quote s.data⟩

/-- Whether the string contains the character (Python `c in s`). -/
def hasChar (s : String) (c : Char) : Bool :=
  decide (c ∈ s.data)

/-- Model of Python `repr` on strings of printable characters: single
quotes by default; double quotes when the string contains a single quote
but no double quote (CPython `unicode_repr` quote-selection rule). -/
def pyReprStr (s : String) : String :=
  if hasChar s squote && !(hasChar s dquote) then
    String.singleton dquote ++ escPy dquote s ++ String.singleton dquote
  else
    String.singleton squote ++ escPy squote s ++ String.singleton squote

/-- Model of Python `str()` on a `dict[str, str]`: `\x7b\x7d` when empty,
otherwise `repr(k): repr(v)` pairs joined by `", "` inside braces. -/
def pyDictRepr (d : Payload) : String :=
  "\x7b" ++ String.intercalate ", " (d.map (fun kv => pyReprStr kv.1 ++ ": " ++ pyReprStr kv.2)) ++ "\x7d"

/-- Outcome of one upstream fetch coroutine as collected by
`asyncio.gather(..., return_exceptions=True)`: either the decoded payload
or the raised exception (carried as its `str()` message). -/
inductive FetchResult where
  | success (payload : Payload)
  | failure (errMsg : String)
deriving DecidableEq, Repr

/-- Structured log levels used by the modelled code. -/
inductive LogLevel where
  | info
  | warning
  | error
deriving DecidableEq, Repr

/-- One structured log event: level, message, the `error=` keyword value
when present, and the remaining keyword pairs. -/
structure LogEvent where
  level : LogLevel
  message : String
  errMsg : Option String := none
  extra : List (String × String) := []
deriving DecidableEq, Repr

/-- Whether a gathered result is an exception
(`isinstance(result, Exception)` in the source). -/
def isExc : FetchResult → Bool
  | .success _ => false
  | .failure _ => true

/-- The payload the source substitutes for a gathered result: the payload
itself on success, the empty dict on an exception. -/
def payloadOf : FetchResult → Payload
  | .success p => p
  | .failure _ => []

/-- Translation of `BusinessService._fetch_external_data` from the point
where `results = await asyncio.gather(*tasks, return_exceptions=True)` has
produced the list `results`.  `results[0]` is read unconditionally (a
missing index is Python `IndexError`, modelled as `none`); `results[1]` is
read only behind the defensive `len(results) > 1` check, otherwise service
B silently keeps the empty dict.  Returns the two substituted payloads and
the warning events emitted for failed sources. -/
def fetchFromResults (results : List FetchResult) :
    Option (Payload × Payload × List LogEvent) :=
  match results.get? 0 with
  | none => none
  | some service_a_result =>
    let service_a_data : Payload :=
      if isExc service_a_result then [] else payloadOf service_a_result
    let service_b_data : Payload :=
      if results.length > 1 then
        match results.get? 1 with
        | some r => if isExc r then [] else payloadOf r
        | none => []
      else []
    let logsA : List LogEvent :=
      match service_a_result with
      | .failure m => [⟨.warning, "Service A call failed", some m, []⟩]
      | .success _ => []
    let logsB : List LogEvent :=
      if results.length > 1 then
        match results.get? 1 with
        | some (.failure m) => [⟨.warning, "Service B call failed", some m, []⟩]
        | _ => []
      else []
    some (service_a_data, service_b_data, logsA ++ logsB)

/-- The task list built by `_fetch_external_data` has exactly two entries,
in registration order: service A's `get_data`, then service B's
`fetch_metadata`.  `asyncio.gather` yields one result per task, in task
order. -/
def gatherPair (ra rb : FetchResult) : List FetchResult := [ra, rb]

/-- `BusinessService._fetch_external_data` for one call whose gathered
outcomes are `ra` (service A) and `rb` (service B). -/
def fetch_external_data (ra rb : FetchResult) :
    Option (Payload × Payload × List LogEvent) :=
  fetchFromResults (gatherPair ra rb)

/-- Straight-line version of the result handling in
`_fetch_external_data`, with no defensive length check: both gathered
outcomes are inspected directly. -/
def fetchDirect (ra rb : FetchResult) : Payload × Payload × List LogEvent :=
  (payloadOf ra, payloadOf rb,
    (match ra with
      | .failure m => [⟨.warning, "Service A call failed", some m, []⟩]
      | .success _ => []) ++
    (match rb with
      | .failure m => [⟨.warning, "Service B call failed", some m, []⟩]
      | .success _ => []))

/-- Python `str()` of the `combined` dict built inside
`BusinessService._combine_data`: keys `input`, `enriched_a`, `enriched_b`,
`processed_at` in insertion order; the first value is a string, the next
two are dicts, and the timestamp float renders as `tRepr`. -/
def combinedRepr (input_data : String) (service_a_data service_b_data : Payload)
    (tRepr : String) : String :=
  "\x7b" ++ pyReprStr "input" ++ ": " ++ pyReprStr input_data ++ ", " ++
    pyReprStr "enriched_a" ++ ": " ++ pyDictRepr service_a_data ++ ", " ++
    pyReprStr "enriched_b" ++ ": " ++ pyDictRepr service_b_data ++ ", " ++
    pyReprStr "processed_at" ++ ": " ++ tRepr ++ "\x7d"

/-- Translation of `BusinessService._combine_data`.  The source reads
`time.time()` once (rendered as `tRepr` here), so the function is a pure
function of the input string, the two payloads and that combination-time
reading. -/
def combine_data (input_data : String) (service_a_data service_b_data : Payload)
    (tRepr : String) : String :=
  "Processed: " ++ toString (combinedRepr input_data service_a_data service_b_data tRepr).length
    ++ " characters of data"

/-- The response dict returned by `BusinessService.process_data`
(`ProcessDataResponse` fields). -/
structure ProcResult where
  processed_data : String
  source_a_data : String
  source_b_data : String
  processing_time_ms : ℚ
deriving DecidableEq

/-- Translation of `BusinessService.process_data`, generic in the
combination step so that error propagation from `_combine_data` can be
stated: the source has no try/except, hence an exception raised by the
combination step (the `Except.error` channel of `combineFn`) propagates to
the caller, while upstream exceptions were already absorbed inside
`_fetch_external_data`.  `tStart` and `tEnd` are the two `time.time()`
readings; `tRepr` renders the reading taken inside the combination step.
Returns the outcome together with the log events emitted up to that
point. -/
def process_data_with
    (combineFn : String → Payload → Payload → String → Except String String)
    (input_data : String) (options : List (String × String))
    (ra rb : FetchResult) (tStart tEnd : ℚ) (tRepr : String) :
    Except String ProcResult × List LogEvent :=
  let startLog : LogEvent :=
    ⟨.info, "Starting data processing", none, ("input_data", input_data) :: options⟩
  match fetch_external_data ra rb with
  | none => (Except.error "IndexError", [startLog])
  | some (service_a_data, service_b_data, fetchLogs) =>
    match combineFn input_data service_a_data service_b_data tRepr with
    | Except.error e => (Except.error e, startLog :: fetchLogs)
    | Except.ok processed_result =>
      (Except.ok
        { processed_data := processed_result
          source_a_data := pyDictRepr service_a_data
          source_b_data := pyDictRepr service_b_data
          processing_time_ms := (tEnd - tStart) * 1000 },
       startLog :: fetchLogs ++ [⟨.info, "Data processing completed", none, []⟩])

/-- `BusinessService.process_data` with the actual combination step of the
source, which never raises. -/
def process_data (input_data : String) (options : List (String × String))
    (ra rb : FetchResult) (tStart tEnd : ℚ) (tRepr : String) :
    Except String ProcResult × List LogEvent :=
  process_data_with (fun i a b t => Except.ok (combine_data i a b t))
    input_data options ra rb tStart tEnd tRepr

/-- Completion-order model of `asyncio.gather` over the two launched
tasks: the scheduler delivers one completion event per task, tagged with
the task's registration index, in an arbitrary completion order; `gather`
places each event's result into the slot of its index. -/
def slotsOfEvents (events : List (Nat × FetchResult)) :
    Option FetchResult × Option FetchResult :=
  events.foldl
    (fun acc ev =>
      if ev.1 = 0 then (some ev.2, acc.2)
      else if ev.1 = 1 then (acc.1, some ev.2)
      else acc)
    (none, none)

/-- The results list `asyncio.gather` returns for a given stream of
completion events: defined exactly when both slots were filled, and then
ordered by registration index, not by completion order. -/
def resultsOfEvents (events : List (Nat × FetchResult)) :
    Option (List FetchResult) :=
  match slotsOfEvents events with
  | (some r0, some r1) => some [r0, r1]
  | _ => none

/-- An HTTP response as seen by `BaseClient._make_request`: the status
code, and the result of `response.json()` — `some` payload when the body
parses as a JSON object, `none` when `response.json()` would raise a JSON
decode error. -/
structure HttpResponse where
  status : Nat
  jsonBody : Option Payload
deriving DecidableEq, Repr

/-- Exceptions `_make_request` can raise: `httpx.HTTPError` (connection
errors, timeouts, and the `HTTPStatusError` raised by
`raise_for_status()`), carrying its `str()` message; or the JSON decode
error raised by `response.json()`, which is not an `httpx.HTTPError`. -/
inductive PyError where
  | httpError (message : String)
  | jsonDecodeError
deriving DecidableEq, Repr

/-- Whether `response.raise_for_status()` passes: httpx raises
`HTTPStatusError` for every non-2xx status. -/
def isSuccessStatus (status : Nat) : Bool :=
  200 ≤ status && status ≤ 299

/-- The `str()` of the `HTTPStatusError` raised by `raise_for_status()`
for a non-2xx status; only its presence and status dependence matter to
the claims, not its exact wording. -/
def statusErrMsg (status : Nat) : String :=
  "HTTP status error for status " ++ toString status

/-- Translation of `BaseClient._make_request`.  `transportResult` is the
outcome of `await self.http_client.request(...)`: `Except.error msg` when
the transport raises an `httpx.HTTPError` (connection error, timeout) with
message `msg`, `Except.ok resp` when a response arrives.  The body then
passes `raise_for_status()` and `response.json()`.  Every caught
`httpx.HTTPError` is logged at error level and re-raised; a JSON decode
error is not caught by the `except httpx.HTTPError` clause and propagates
unlogged. -/
def make_request (method url : String)
    (transportResult : Except String HttpResponse) :
    Except PyError Payload × List LogEvent :=
  match transportResult with
  | Except.error msg =>
    (Except.error (PyError.httpError msg),
     [⟨.error, "HTTP request failed", some msg, [("url", url), ("method", method)]⟩])
  | Except.ok resp =>
    if isSuccessStatus resp.status then
      match resp.jsonBody with
      | some payload => (Except.ok payload, [])
      | none => (Except.error PyError.jsonDecodeError, [])
    else
      (Except.error (PyError.httpError (statusErrMsg resp.status)),
       [⟨.error, "HTTP request failed", some (statusErrMsg resp.status),
         [("url", url), ("method", method)]⟩])

/-- Python `str.rstrip("/")` as applied to the base URL in
`BaseClient.__init__`. -/
def rstripSlash (s : String) : String :=
  s.dropRightWhile (fun c => c = Char.ofNat 47)

/-- The HTTP request a client operation issues: method, full URL, query
parameters. -/
structure HttpRequestSpec where
  method : String
  url : String
  params : List (String × String)
deriving DecidableEq, Repr

/-- The request issued by `ExternalServiceAClient.get_data(query)`. -/
def get_data_request (base_url query : String) : HttpRequestSpec :=
  { method := "GET", url := rstripSlash base_url ++ "/api/data",
    params := [("query", query)] }

/-- The request issued by
`ExternalServiceBClient.fetch_metadata(item_id)`. -/
def fetch_metadata_request (base_url item_id : String) : HttpRequestSpec :=
  { method := "GET",
    url := rstripSlash base_url ++ "/api/items/" ++ item_id ++ "/metadata",
    params := [] }

/-- The upstream calls `_fetch_external_data` launches for one
`process_data(input_data, options)` call, in registration order.  Both
tasks are bound to `input_data` alone; `options` does not appear. -/
def upstream_calls (base_a base_b input_data : String) : List HttpRequestSpec :=
  [get_data_request base_a input_data, fetch_metadata_request base_b input_data]

/-- A FastAPI `HTTPException` as raised by the `/process` handler. -/
structure HTTPExceptionModel where
  status_code : Nat
  detail : String
deriving DecidableEq, Repr

/-- Translation of the `/process` endpoint handler in `app/main.py`: on
success it forwards the service result as the response model; on any
exception it logs at error level and raises
`HTTPException(status_code=500, detail="Processing failed")`. -/
def endpoint_process_data (svcOutcome : Except String ProcResult) :
    Except HTTPExceptionModel ProcResult × List LogEvent :=
  match svcOutcome with
  | Except.ok r => (Except.ok r, [])
  | Except.error e =>
    (Except.error { status_code := 500, detail := "Processing failed" },
     [⟨.error, "Failed to process data", some e, []⟩])

/-- The JSON body of the 500 response built by `error_handler_middleware`
when an exception reaches it. -/
structure ErrorBody where
  errorLabel : String
  request_id : String
  message : String
deriving DecidableEq, Repr

/-- Translation of the exception branch of `error_handler_middleware`:
status 500, a fixed error label, and a message that is the exception's
`str()` in debug mode and the fixed string `"Something went wrong"`
otherwise. -/
def middleware_catch (debug : Bool) (request_id excMsg : String) :
    Nat × ErrorBody :=
  (500,
   { errorLabel := "Internal server error"
     request_id := request_id
     message := if debug then excMsg else "Something went wrong" })

/-- Rendering asserted by the claim about the result fields, following its
words: a non-empty payload rendered in dict form with every key and value
single-quoted. -/
def dictReprClaim (d : Payload) : String :=
  "\x7b" ++ String.intercalate ", "
    (d.map (fun kv =>
      String.singleton squote ++ kv.1 ++ String.singleton squote ++ ": " ++
      String.singleton squote ++ kv.2 ++ String.singleton squote)) ++ "\x7d"

/-- A string with no quote characters and no backslash, on which Python
`repr` is plain single-quoting with no escapes. -/
def plainPyStr (s : String) : Bool :=
  !(hasChar s squote) && !(hasChar s dquote) && !(hasChar s bslash)

/-- A string whose characters all come from payload strings that satisfy
`plainPyStr`; helper predicate for a whole payload. -/
def plainPayload (d : Payload) : Bool :=
  d.all (fun kv => plainPyStr kv.1 && plainPyStr kv.2)

/-! Helper lemmas. -/

/-- A list that is a permutation of a two-element list is one of its two
arrangements. -/
theorem perm_pair_eq {α : Type} {x y : α} {l : List α} (h : l.Perm [x, y]) :
    l = [x, y] ∨ l = [y, x] := by
  have hlen : l.length = 2 := h.length_eq
  rcases l with _ | ⟨a, l1⟩
  · simp at hlen
  rcases l1 with _ | ⟨b, l2⟩
  · simp at hlen
  rcases l2 with _ | ⟨c, l3⟩
  · have ha : a ∈ ([x, y] : List α) := h.mem_iff.mp (by simp)
    rcases by simpa using ha with ha | ha
    · subst ha
      have hb : b = y := by simpa using (List.perm_singleton).mp h.cons_inv
      subst hb; exact Or.inl rfl
    · subst ha
      have h2 : List.Perm ([a, b] : List α) [a, x] :=
        h.trans (List.Perm.swap a x [])
      have hb : b = x := by simpa using (List.perm_singleton).mp h2.cons_inv
      subst hb; exact Or.inr rfl
  · simp at hlen

/-- The result handling of `_fetch_external_data`, run on the two-element
results list `asyncio.gather` produces, coincides with the straight-line
handling that inspects both outcomes. -/
theorem fetch_eq_direct (ra rb : FetchResult) :
    fetch_external_data ra rb = some (fetchDirect ra rb) := by
  cases ra <;> cases rb <;> rfl

/-- Closed form of `process_data`: the call always succeeds, the payload
substituted for each source is `payloadOf` of its gathered outcome, the
response fields are the `str()` renderings, and the log stream is the
start event, the per-failure warnings, and the completion event. -/
theorem process_data_eval (i : String) (o : List (String × String))
    (ra rb : FetchResult) (ts te : ℚ) (tr : String) :
    process_data i o ra rb ts te tr =
      (Except.ok
        { processed_data := combine_data i (payloadOf ra) (payloadOf rb) tr
          source_a_data := pyDictRepr (payloadOf ra)
          source_b_data := pyDictRepr (payloadOf rb)
          processing_time_ms := (te - ts) * 1000 },
       LogEvent.mk .info "Starting data processing" none (("input_data", i) :: o) ::
         (fetchDirect ra rb).2.2 ++
           [LogEvent.mk .info "Data processing completed" none []]) := by
  cases ra <;> cases rb <;> rfl

/-- The empty payload renders as the two braces. -/
theorem pyDictRepr_nil : pyDictRepr [] = "\x7b\x7d" := rfl

/-- Escaping is the identity on character lists free of the backslash and
the delimiter. -/
theorem escChars_eq_self (q : Char) (l : List Char)
    (h : ∀ c ∈ l, c ≠ bslash ∧ c ≠ q) : escChars q l = l := by
  induction l with
  | nil => rfl
  | cons c cs ih =>
    have hc := h c (by simp)
    simp only [escChars, if_neg hc.1, if_neg hc.2, List.singleton_append,
      List.cons.injEq, true_and]
    exact ih (fun d hd => h d (by simp [hd]))

/-- Python `repr` of a plain string is the string wrapped in single
quotes. -/
theorem pyReprStr_plain (s : String) (h : plainPyStr s = true) :
    pyReprStr s = String.singleton squote ++ s ++ String.singleton squote := by
  have hs : hasChar s squote = false := by
    have := h; unfold plainPyStr at this
    simp only [Bool.and_eq_true, Bool.not_eq_true'] at this
    exact this.1.1
  have hb : hasChar s bslash = false := by
    have := h; unfold plainPyStr at this
    simp only [Bool.and_eq_true, Bool.not_eq_true'] at this
    exact this.2
  have hesc : escPy squote s = s := by
    unfold escPy
    have : escChars squote s.data = s.data := by
      refine escChars_eq_self _ _ (fun c hc => ⟨?_, ?_⟩)
      · intro hcb; subst hcb
        have : hasChar s bslash = true := by
          unfold hasChar; exact decide_eq_true hc
        rw [this] at hb; cases hb
      · intro hcs; subst hcs
        have : hasChar s squote = true := by
          unfold hasChar; exact decide_eq_true hc
        rw [this] at hs; cases hs
    rw [this]
  unfold pyReprStr
  rw [hs]
  simp [hesc]

/-- Closed form of `process_data_with`: the upstream outcomes are absorbed
into substituted payloads before the combination step runs, and only the
combination step decides between the success and error channels. -/
theorem process_data_with_eval
    (f : String → Payload → Payload → String → Except String String)
    (i : String) (o : List (String × String)) (ra rb : FetchResult)
    (ts te : ℚ) (tr : String) :
    process_data_with f i o ra rb ts te tr =
      (match f i (payloadOf ra) (payloadOf rb) tr with
       | Except.error e =>
         (Except.error e,
          LogEvent.mk .info "Starting data processing" none (("input_data", i) :: o) ::
            (fetchDirect ra rb).2.2)
       | Except.ok pr =>
         (Except.ok
           { processed_data := pr
             source_a_data := pyDictRepr (payloadOf ra)
             source_b_data := pyDictRepr (payloadOf rb)
             processing_time_ms := (te - ts) * 1000 },
          LogEvent.mk .info "Starting data processing" none (("input_data", i) :: o) ::
            (fetchDirect ra rb).2.2 ++
              [LogEvent.mk .info "Data processing completed" none []])) := by
  cases ra <;> cases rb <;> rfl

/-- The combined summary always starts with the literal `Processed:`. -/
theorem combine_data_prefixed (i : String) (a b : Payload) (tr : String) :
    ∃ s, combine_data i a b tr = "Processed:" ++ s := by
  refine ⟨" " ++ (toString (combinedRepr i a b tr).length ++ " characters of data"), ?_⟩
  unfold combine_data
  rw [show ("Processed: " : String) = "Processed:" ++ " " from rfl]
  rw [String.append_assoc, String.append_assoc]

/-- The combined summary is never the empty string. -/
theorem combine_data_ne_empty (i : String) (a b : Payload) (tr : String) :
    combine_data i a b tr ≠ "" := by
  obtain ⟨s, hs⟩ := combine_data_prefixed i a b tr
  rw [hs]
  intro h
  have hlen := congrArg String.length h
  rw [String.length_append] at hlen
  have h10 : ("Processed:" : String).length = 10 := rfl
  have h0 : ("" : String).length = 0 := rfl
  omega

/-- C1: if exactly one of the two upstream fetches fails and the other
returns a payload, `process_data` still returns successfully, the failing
source's field is the stringified empty payload, the other source's field
is the `str()` of its actual payload, and a warning-level log event
carrying the failing source's error message is emitted.  Both asymmetric
cases (A fails, B fails) are covered. -/
theorem C1_single_source_failure_isolated (input_data : String)
    (options : List (String × String)) (m : String) (p : Payload)
    (ts te : ℚ) (tr : String) :
    (∃ r, (process_data input_data options (FetchResult.failure m) (FetchResult.success p) ts te tr).1 = Except.ok r ∧
        r.source_a_data = "\x7b\x7d" ∧ r.source_b_data = pyDictRepr p) ∧
    LogEvent.mk .warning "Service A call failed" (some m) [] ∈
        (process_data input_data options (FetchResult.failure m) (FetchResult.success p) ts te tr).2 ∧
    (∃ r, (process_data input_data options (FetchResult.success p) (FetchResult.failure m) ts te tr).1 = Except.ok r ∧
        r.source_a_data = pyDictRepr p ∧ r.source_b_data = "\x7b\x7d") ∧
    LogEvent.mk .warning "Service B call failed" (some m) [] ∈
        (process_data input_data options (FetchResult.success p) (FetchResult.failure m) ts te tr).2 := by
  have hA := process_data_eval input_data options (FetchResult.failure m) (FetchResult.success p) ts te tr
  have hB := process_data_eval input_data options (FetchResult.success p) (FetchResult.failure m) ts te tr
  refine ⟨⟨_, by rw [hA], rfl, rfl⟩, ?_, ⟨_, by rw [hB], rfl, rfl⟩, ?_⟩
  · rw [hA]; simp [fetchDirect]
  · rw [hB]; simp [fetchDirect]

/-- C2: `process_data` never raises because of an upstream failure — it
returns successfully for every mix of upstream outcomes; when both sources
fail it returns both source fields as the stringified empty payload and a
non-empty `processed_data` starting with the substring `Processed:`; and
the only error `process_data_with` can propagate is one produced by the
combination step itself. -/
theorem C2_total_failure_tolerated :
    (∀ i o ra rb ts te tr, ∃ r,
        (process_data i o ra rb ts te tr).1 = Except.ok r) ∧
    (∀ i o ma mb ts te tr, ∃ r,
        (process_data i o (FetchResult.failure ma) (FetchResult.failure mb) ts te tr).1 = Except.ok r ∧
        r.source_a_data = "\x7b\x7d" ∧ r.source_b_data = "\x7b\x7d" ∧
        r.processed_data ≠ "" ∧ ∃ s, r.processed_data = "Processed:" ++ s) ∧
    (∀ f i o ra rb ts te tr e,
        (process_data_with f i o ra rb ts te tr).1 = Except.error e →
        f i (payloadOf ra) (payloadOf rb) tr = Except.error e) := by
  refine ⟨?_, ?_, ?_⟩
  · intro i o ra rb ts te tr
    exact ⟨_, by rw [process_data_eval]⟩
  · intro i o ma mb ts te tr
    refine ⟨_, by rw [process_data_eval], rfl, rfl, ?_, ?_⟩
    · exact combine_data_ne_empty i [] [] tr
    · exact combine_data_prefixed i [] [] tr
  · intro f i o ra rb ts te tr e h
    rw [process_data_with_eval] at h
    cases hf : f i (payloadOf ra) (payloadOf rb) tr with
    | error e2 =>
      rw [hf] at h
      simp only [Except.error.injEq] at h
      rw [h]
    | ok s =>
      rw [hf] at h
      simp at h

/-- C2 witness: with a combination step that fails on purpose, the
propagated error is exactly the combination step's own error. -/
theorem C2_total_failure_tolerated_witness :
    (fun (_ : String) (_ _ : Payload) (_ : String) =>
        (Except.error "boom" : Except String String)) "x"
      (payloadOf (FetchResult.success [])) (payloadOf (FetchResult.success [])) "t" =
      Except.error "boom" :=
  C2_total_failure_tolerated.2.2
    (fun _ _ _ _ => Except.error "boom") "x" [] (FetchResult.success [])
    (FetchResult.success []) 0 0 "t" "boom" rfl

/-- C3: whatever order the two concurrent operations complete in, the
gather step places service A's outcome first and service B's outcome
second (the fixed registration order), and the response fields
`source_a_data` / `source_b_data` are derived from service A's and service
B's outcome respectively — the mapping from source identity to outcome
never swaps. -/
theorem C3_source_mapping_deterministic (ra rb : FetchResult)
    (events : List (Nat × FetchResult))
    (h : events.Perm [(0, ra), (1, rb)]) :
    resultsOfEvents events = some (gatherPair ra rb) ∧
    ∀ i o ts te tr, ∃ r,
      (process_data i o ra rb ts te tr).1 = Except.ok r ∧
      r.source_a_data = pyDictRepr (payloadOf ra) ∧
      r.source_b_data = pyDictRepr (payloadOf rb) := by
  constructor
  · rcases perm_pair_eq h with h1 | h1 <;> subst h1 <;> rfl
  · intro i o ts te tr
    exact ⟨_, by rw [process_data_eval], rfl, rfl⟩

/-- C3 witness: a completion stream in which service B finishes before
service A still yields the gather results in registration order. -/
theorem C3_source_mapping_deterministic_witness :
    resultsOfEvents
        [(1, FetchResult.success [("meta", "data_from_b")]),
         (0, FetchResult.failure "boom")] =
      some (gatherPair (FetchResult.failure "boom")
        (FetchResult.success [("meta", "data_from_b")])) :=
  (C3_source_mapping_deterministic _ _ _ (List.Perm.swap _ _ _)).1

/-- C4: for every call and every mix of upstream outcomes, `process_data`
succeeds and returns `processing_time_ms` equal to the elapsed wall-clock
time `(te - ts) * 1000` between the reading taken at the start of the call
and the reading taken after the combination step; under monotone clock
readings it is non-negative. -/
theorem C4_processing_time_nonneg (i : String) (o : List (String × String))
    (ra rb : FetchResult) (ts te : ℚ) (tr : String) (h : ts ≤ te) :
    ∃ r, (process_data i o ra rb ts te tr).1 = Except.ok r ∧
      r.processing_time_ms = (te - ts) * 1000 ∧ 0 ≤ r.processing_time_ms := by
  refine ⟨_, by rw [process_data_eval], rfl, ?_⟩
  exact mul_nonneg (sub_nonneg.mpr h) (by norm_num)

/-- C4 witness at concrete clock readings 0 and 1 with one failing
source. -/
theorem C4_processing_time_nonneg_witness :
    ∃ r, (process_data "x" [] (FetchResult.success [])
        (FetchResult.failure "e") 0 1 "t").1 = Except.ok r ∧
      r.processing_time_ms = (1 - 0) * 1000 ∧ 0 ≤ r.processing_time_ms :=
  C4_processing_time_nonneg "x" [] (FetchResult.success [])
    (FetchResult.failure "e") 0 1 "t" (by norm_num)

/-- C5: the combination step is a pure function of the input, the two
payloads and the combination-time reading — the `processed_data` field is
unchanged across calls that differ only in options and start/end clock
readings; it has the closed form computed from those four arguments alone;
and it succeeds with a non-empty string even when both payloads are
empty. -/
theorem C5_combination_pure :
    (∀ i o1 o2 ra rb ts1 te1 ts2 te2 tr,
        (process_data i o1 ra rb ts1 te1 tr).1.map ProcResult.processed_data =
        (process_data i o2 ra rb ts2 te2 tr).1.map ProcResult.processed_data) ∧
    (∀ i a b tr,
        combine_data i a b tr =
          "Processed: " ++ toString (combinedRepr i a b tr).length ++
            " characters of data") ∧
    (∀ i tr, ∃ s, combine_data i [] [] tr = s ∧ s ≠ "") := by
  refine ⟨?_, fun i a b tr => rfl,
    fun i tr => ⟨_, rfl, combine_data_ne_empty i [] [] tr⟩⟩
  intro i o1 o2 ra rb ts1 te1 ts2 te2 tr
  rw [process_data_eval, process_data_eval]
  rfl

/-- C7: a combination-step failure reaches the caller as a generic
internal-processing failure: the endpoint handler converts any service
exception into a 500 with the fixed detail string, independent of the
exception (no internal detail leaked), and the error middleware's response
message is the fixed generic string outside debug mode while in debug mode
it is the underlying exception message. -/
theorem C7_combination_error_surfaced_generically :
    (∀ e, (endpoint_process_data (Except.error e)).1 =
        Except.error { status_code := 500, detail := "Processing failed" }) ∧
    (∀ e1 e2, (endpoint_process_data (Except.error e1)).1 =
        (endpoint_process_data (Except.error e2)).1) ∧
    (∀ rid e, (middleware_catch false rid e).2.message = "Something went wrong") ∧
    (∀ rid e, (middleware_catch true rid e).2.message = e) :=
  ⟨fun _ => rfl, fun _ _ => rfl, fun _ _ => rfl, fun _ _ => rfl⟩

/-- C8: `process_data` accepts any options mapping and always succeeds;
the returned result is identical for any two options mappings with the
same input, outcomes and clock readings; and the upstream calls issued
carry only the input (service A's query parameter and service B's path),
with no option key anywhere. -/
theorem C8_options_not_forwarded :
    (∀ i o ra rb ts te tr, ∃ r,
        (process_data i o ra rb ts te tr).1 = Except.ok r) ∧
    (∀ i o1 o2 ra rb ts te tr,
        (process_data i o1 ra rb ts te tr).1 =
        (process_data i o2 ra rb ts te tr).1) ∧
    (∀ ba bb i, upstream_calls ba bb i =
        [{ method := "GET", url := rstripSlash ba ++ "/api/data",
           params := [("query", i)] },
         { method := "GET",
           url := rstripSlash bb ++ "/api/items/" ++ i ++ "/metadata",
           params := [] }]) := by
  refine ⟨fun i o ra rb ts te tr => ⟨_, by rw [process_data_eval]⟩, ?_,
    fun ba bb i => rfl⟩
  intro i o1 o2 ra rb ts te tr
  rw [process_data_eval, process_data_eval]

/-- C9: the gather step over the two launched tasks always yields exactly
two results, so the defensive `len(results) > 1` check always succeeds,
the branch that leaves service B's payload empty without inspecting an
outcome is unreachable (the handling coincides with the straight-line
version that inspects both outcomes), and exactly one outcome feeds each
source's payload. -/
theorem C9_gather_always_two_results (ra rb : FetchResult) :
    (gatherPair ra rb).length > 1 ∧
    fetchFromResults (gatherPair ra rb) = some (fetchDirect ra rb) ∧
    (fetchDirect ra rb).1 = payloadOf ra ∧
    (fetchDirect ra rb).2.1 = payloadOf rb :=
  ⟨by simp [gatherPair], fetch_eq_direct ra rb, rfl, rfl⟩

/-- C6 counterexample: the claim that `_make_request` returns the
JSON-decoded body if and only if the response has a success status is
false: a 200 response whose body does not parse as JSON makes
`response.json()` raise a decode error, so nothing is returned despite the
success status. -/
theorem C6_counterexample :
    ¬ (∀ method url (tr : Except String HttpResponse),
        (∃ p, (make_request method url tr).1 = Except.ok p) ↔
        (∃ resp, tr = Except.ok resp ∧ isSuccessStatus resp.status = true)) := by
  intro h
  have h2 := (h "GET" "u" (Except.ok ⟨200, none⟩)).mpr
    ⟨⟨200, none⟩, rfl, by decide⟩
  obtain ⟨p, hp⟩ := h2
  have hred : (make_request "GET" "u" (Except.ok ⟨200, none⟩)).1 =
      Except.error PyError.jsonDecodeError := rfl
  rw [hred] at hp
  exact Except.noConfusion hp

/-- C6 amended: `_make_request` returns the JSON-decoded body exactly when
the response has a success status and the body parses as JSON; any
transport-level failure (connection error or timeout raised by the
transport, or a non-2xx status) makes it fail with the typed
`httpx.HTTPError` carrying a message, logged at error level; a
success-status response with an unparsable body raises a JSON decode
error instead; a partial or garbage payload is never returned. -/
theorem C6_transport_failures_typed :
    (∀ method url msg,
        (make_request method url (Except.error msg)).1 =
          Except.error (PyError.httpError msg) ∧
        LogEvent.mk .error "HTTP request failed" (some msg)
            [("url", url), ("method", method)] ∈
          (make_request method url (Except.error msg)).2) ∧
    (∀ method url resp, isSuccessStatus resp.status = false →
        (make_request method url (Except.ok resp)).1 =
          Except.error (PyError.httpError (statusErrMsg resp.status))) ∧
    (∀ method url resp p, isSuccessStatus resp.status = true →
        resp.jsonBody = some p →
        (make_request method url (Except.ok resp)).1 = Except.ok p) ∧
    (∀ method url resp, isSuccessStatus resp.status = true →
        resp.jsonBody = none →
        (make_request method url (Except.ok resp)).1 =
          Except.error PyError.jsonDecodeError) ∧
    (∀ method url tr p, (make_request method url tr).1 = Except.ok p →
        ∃ resp, tr = Except.ok resp ∧ isSuccessStatus resp.status = true ∧
          resp.jsonBody = some p) := by
  refine ⟨fun method url msg => ⟨rfl, by simp [make_request]⟩, ?_, ?_, ?_, ?_⟩
  · intro method url resp h
    simp [make_request, h]
  · intro method url resp p h1 h2
    simp [make_request, h1, h2]
  · intro method url resp h1 h2
    simp [make_request, h1, h2]
  · intro method url tr p h
    cases tr with
    | error msg => simp [make_request] at h
    | ok resp =>
      by_cases hs : isSuccessStatus resp.status = true
      · cases hb : resp.jsonBody with
        | none => rw [show (make_request method url (Except.ok resp)).1 =
            Except.error PyError.jsonDecodeError by simp [make_request, hs, hb]] at h
                  exact Except.noConfusion h
        | some q =>
          refine ⟨resp, rfl, hs, ?_⟩
          rw [show (make_request method url (Except.ok resp)).1 =
            Except.ok q by simp [make_request, hs, hb]] at h
          rw [hb]
          simpa using h
      · rw [show (make_request method url (Except.ok resp)).1 =
          Except.error (PyError.httpError (statusErrMsg resp.status)) by
            simp [make_request, Bool.of_not_eq_true hs]] at h
        exact Except.noConfusion h

/-- C6 witness: a 404 response fails with the typed HTTP error, a 200
response with a JSON body returns the decoded payload, and a connection
failure fails with the typed HTTP error carrying its message. -/
theorem C6_transport_failures_typed_witness :
    (make_request "GET" "u" (Except.ok ⟨404, some [("a", "b")]⟩)).1 =
      Except.error (PyError.httpError (statusErrMsg 404)) ∧
    (make_request "GET" "u" (Except.ok ⟨200, some [("a", "b")]⟩)).1 =
      Except.ok [("a", "b")] :=
  ⟨C6_transport_failures_typed.2.1 "GET" "u" ⟨404, some [("a", "b")]⟩ (by decide),
   C6_transport_failures_typed.2.2.1 "GET" "u" ⟨200, some [("a", "b")]⟩
     [("a", "b")] (by decide) rfl⟩

/-- C10 counterexample: the claim that the source fields render non-empty
payloads with single-quoted keys and values is false: a payload value
containing a single quote is rendered by Python `str()` inside double
quotes, so the field differs from the single-quoted rendering. -/
theorem C10_counterexample :
    ¬ (∀ i (o : List (String × String)) ra rb (ts te : ℚ) tr r,
        (process_data i o ra rb ts te tr).1 = Except.ok r →
        r.source_a_data = dictReprClaim (payloadOf ra)) := by
  intro h
  have hev := process_data_eval "x" []
    (FetchResult.success [("k", "it" ++ String.singleton squote ++ "s")])
    (FetchResult.success []) 0 0 "t"
  have h1 := h "x" []
    (FetchResult.success [("k", "it" ++ String.singleton squote ++ "s")])
    (FetchResult.success []) 0 0 "t" _ (by rw [hev])
  exact absurd h1 (by decide)

/-- C10 amended: the result's source fields are exactly Python's `str()`
rendering of the corresponding payload — the empty payload renders as the
two braces, and a non-empty payload renders in Python dict-repr form (not
JSON), which single-quotes every key and value that contains no quote
character and no backslash, while a string containing a single quote but
no double quote is double-quoted, as CPython `repr` does. -/
theorem C10_source_fields_are_str_rendering :
    (∀ i (o : List (String × String)) ra rb (ts te : ℚ) tr, ∃ r,
        (process_data i o ra rb ts te tr).1 = Except.ok r ∧
        r.source_a_data = pyDictRepr (payloadOf ra) ∧
        r.source_b_data = pyDictRepr (payloadOf rb)) ∧
    pyDictRepr [] = "\x7b\x7d" ∧
    (∀ d : Payload, plainPayload d = true → pyDictRepr d = dictReprClaim d) ∧
    (∀ s, hasChar s squote = true → hasChar s dquote = false →
        pyReprStr s =
          String.singleton dquote ++ escPy dquote s ++ String.singleton dquote) := by
  refine ⟨fun i o ra rb ts te tr => ⟨_, by rw [process_data_eval], rfl, rfl⟩,
    rfl, ?_, ?_⟩
  · intro d hd
    unfold pyDictRepr dictReprClaim
    have hmap : d.map (fun kv => pyReprStr kv.1 ++ ": " ++ pyReprStr kv.2) =
        d.map (fun kv =>
          String.singleton squote ++ kv.1 ++ String.singleton squote ++ ": " ++
          String.singleton squote ++ kv.2 ++ String.singleton squote) := by
      refine List.map_congr_left (fun kv hkv => ?_)
      have hkvp := (List.all_eq_true.mp hd) kv hkv
      simp only [Bool.and_eq_true] at hkvp
      rw [pyReprStr_plain kv.1 hkvp.1, pyReprStr_plain kv.2 hkvp.2]
      simp [String.append_assoc]
    rw [hmap]
  · intro s h1 h2
    unfold pyReprStr
    rw [h1, h2]
    rfl

/-- C10 witness: a plain payload renders single-quoted exactly as the
claim describes, and a value with a single quote switches to double
quotes. -/
theorem C10_source_fields_are_str_rendering_witness :
    pyDictRepr [("result", "data_from_a")] =
      dictReprClaim [("result", "data_from_a")] ∧
    pyReprStr ("it" ++ String.singleton squote ++ "s") =
      String.singleton dquote ++ escPy dquote ("it" ++ String.singleton squote ++ "s") ++
        String.singleton dquote :=
  ⟨C10_source_fields_are_str_rendering.2.2.1 [("result", "data_from_a")] (by decide),
   C10_source_fields_are_str_rendering.2.2.2 ("it" ++ String.singleton squote ++ "s")
     (by decide) (by decide)⟩

end FastapiBase
